import Mathlib

/-!
Shallow embedding of the SmartRoute server (`server/graph_engine.py` and
`server/main.py`).

Numbers are modelled as rationals (`ℚ`): all arithmetic performed by the
program on these code paths is exact decimal arithmetic on small literals,
so `ℚ` is a faithful stand-in for Python floats here.  Python string values
are modelled as `String` / `List Char`; tag values that may be `None`, a
scalar or a list are modelled by the inductive `Tag`.
-/

set_option autoImplicit false

namespace SmartRoute

/-- A tag value attached to an edge (`maxspeed` or `highway`): Python `None`,
a scalar (stringified), or a list of scalars. -/
inductive Tag where
  | null
  | str (s : String)
  | list (l : List String)
deriving DecidableEq

/-- Python `str.strip()` on a character list (restricted to the ASCII
whitespace recognised by `Char.isWhitespace`). -/
def pyStripChars (cs : List Char) : List Char :=
  ((cs.dropWhile Char.isWhitespace).reverse.dropWhile Char.isWhitespace).reverse

/-- Numeric value of a list of decimal digit characters, most significant
first. -/
def digitsValN (cs : List Char) : Nat :=
  cs.foldl (fun a c => 10 * a + (c.toNat - 48)) 0

/-- Core of Python `float()` on an unsigned plain decimal literal: digits,
an optional single point, at least one digit overall.  The result is a pair
`(m, e)` denoting the value `m / 10 ^ e` (reading `ip.fp` as the integer
`ip ++ fp` scaled down by `10 ^ |fp|`).  Exponent, underscore, `inf` and
`nan` forms of Python floats are not modelled: they cannot be produced by
the digit-filtering branch of the speed parser and do not occur as
coordinate or speed strings. -/
def pyFloatCore (cs : List Char) : Option (Nat × Nat) :=
  let ip := cs.takeWhile Char.isDigit
  let rest := cs.dropWhile Char.isDigit
  match rest with
  | [] => if ip.isEmpty then Option.none else Option.some (digitsValN ip, 0)
  | '.' :: fp =>
    if fp.all Char.isDigit && !(ip.isEmpty && fp.isEmpty) then
      Option.some (digitsValN (ip ++ fp), fp.length)
    else Option.none
  | _ => Option.none

/-- Python `float()` on a character list, as an exact integer representation:
strips whitespace, handles an optional sign, and returns `(n, e)` denoting
`n / 10 ^ e`; `Option.none` is the `ValueError` of an unparsable string. -/
def pyFloatRepChars (cs : List Char) : Option (Int × Nat) :=
  match pyStripChars cs with
  | '+' :: cs => (pyFloatCore cs).map (fun p => ((p.1 : Int), p.2))
  | '-' :: cs => (pyFloatCore cs).map (fun p => (-(p.1 : Int), p.2))
  | cs => (pyFloatCore cs).map (fun p => ((p.1 : Int), p.2))

/-- The rational value denoted by a parsed float representation. -/
def repVal (p : Int × Nat) : ℚ := (p.1 : ℚ) / (10 : ℚ) ^ p.2

/-- Python `float()` on a character list, as a rational. -/
def pyFloatChars (cs : List Char) : Option ℚ :=
  (pyFloatRepChars cs).map repVal

/-- Python `float(s)` on a string. -/
def pyFloat (s : String) : Option ℚ :=
  pyFloatChars s.toList

/-- Does the character list start with the characters `m`, `p`, `h`? -/
def startsWithMph : List Char → Bool
  | 'm' :: 'p' :: 'h' :: _ => true
  | _ => false

/-- Python `"mph" in s` over the lowered character list. -/
def containsMphChars : List Char → Bool
  | [] => false
  | c :: cs => startsWithMph (c :: cs) || containsMphChars cs

/-- Python `s.split("mph")[0]`: the prefix of the character list before the
first occurrence of `mph` (the whole list when there is none). -/
def beforeMphChars : List Char → List Char
  | [] => []
  | c :: cs => if startsWithMph (c :: cs) then [] else c :: beforeMphChars cs

/-- `1.60934`, the mph to km/h factor of `_parse_maxspeed_kmh`. -/
def MPH_TO_KMH : ℚ := 160934 / 100000

/-- The scalar string a `maxspeed` tag is reduced to by
`_parse_maxspeed_kmh` before parsing: `None` returns early (no string);
`if isinstance(val, list) and val: val = val[0]` takes the head of a
non-empty list; `str` of an empty Python list is `"[]"`. -/
def tagScalarStr : Tag → Option String
  | Tag.null => Option.none
  | Tag.str s => Option.some s
  | Tag.list [] => Option.some "[]"
  | Tag.list (h :: _) => Option.some h

/-- The parsing core of `_parse_maxspeed_kmh` applied to the scalar string:
`s = str(val).lower().strip()`; if `"mph" in s`, float-parse the part before
`"mph"` (stripped) and multiply by `1.60934`; otherwise keep only digit and
point characters and float-parse those.  A failed float parse is the
swallowed exception of the source, modelled as `Option.none`. -/
def parseSpeedStr (s : String) : Option ℚ :=
  let cs := pyStripChars (s.toList.map Char.toLower)
  if containsMphChars cs then
    (pyFloatChars (pyStripChars (beforeMphChars cs))).map (fun q => q * MPH_TO_KMH)
  else
    pyFloatChars (cs.filter (fun c => c.isDigit || c == '.'))

/-- `_parse_maxspeed_kmh` of `graph_engine.py`. -/
def _parse_maxspeed_kmh (t : Tag) : Option ℚ :=
  (tagScalarStr t).bind parseSpeedStr

/-- `DEFAULT_SPEEDS_KMH` of `graph_engine.py`, as an association list. -/
def DEFAULT_SPEEDS_KMH : List (String × ℚ) :=
  [("motorway", 100), ("trunk", 80), ("primary", 60), ("secondary", 50),
   ("tertiary", 40), ("unclassified", 35), ("residential", 30),
   ("living_street", 15), ("service", 20)]

/-- The string a `highway` tag is reduced to in `_edge_speed_kmh`:
`if isinstance(hw, list) and hw: hw = hw[0]` then `str(hw)` — Python
`str(None)` is `"None"` and `str([])` is `"[]"`. -/
def tagFirstStr : Tag → String
  | Tag.null => "None"
  | Tag.str s => s
  | Tag.list [] => "[]"
  | Tag.list (h :: _) => h

/-- The class-default branch of `_edge_speed_kmh`:
`DEFAULT_SPEEDS_KMH.get(str(hw), 40.0)`. -/
def highwayDefault (hw : Tag) : ℚ :=
  (DEFAULT_SPEEDS_KMH.lookup (tagFirstStr hw)).getD 40

/-- Attributes of one edge that the program reads or writes.  `length` is a
number when present; `travel_time` is absent until `_apply_edge_time` sets
it. -/
structure EdgeData where
  length : Option ℚ
  maxspeed : Tag
  highway : Tag
  travel_time : Option ℚ
deriving DecidableEq

/-- `_edge_speed_kmh` of `graph_engine.py`.  `if ms:` is Python float
truthiness: the parsed value is used only when it is non-`None` and
non-zero. -/
def _edge_speed_kmh (data : EdgeData) : ℚ :=
  match _parse_maxspeed_kmh data.maxspeed with
  | Option.some ms => if ms = 0 then highwayDefault data.highway else ms
  | Option.none => highwayDefault data.highway

/-- The loop body of `_apply_edge_time`: read `length` (defaulting to 0),
derive the speed, convert km/h to m/s, and set `travel_time`, with the
`speed_mps > 0` guard against division by zero. -/
def _apply_edge_time_data (data : EdgeData) : EdgeData :=
  let length_m : ℚ := data.length.getD 0
  let speed_kmh := _edge_speed_kmh data
  let speed_mps := speed_kmh * 1000 / 3600
  let tt := if 0 < speed_mps then length_m / speed_mps else 0
  ⟨data.length, data.maxspeed, data.highway, Option.some tt⟩

/-- Attributes of a node: its coordinate (`x` = longitude, `y` = latitude). -/
structure NodeData where
  x : ℚ
  y : ℚ
deriving DecidableEq

/-- An edge of the multigraph: ordered endpoints `u`, `v`, the disambiguating
key `k` of parallel edges, and the attribute mapping. -/
structure Edge where
  u : Nat
  v : Nat
  k : Nat
  data : EdgeData
deriving DecidableEq

/-- The key triple `(u, v, k)` identifying an edge of a `MultiDiGraph`. -/
def edgeKey (e : Edge) : Nat × Nat × Nat := (e.u, e.v, e.k)

/-- A road network: a directed multigraph with attributed nodes and edges
(the value content of a `networkx.MultiDiGraph`). -/
structure Graph where
  nodes : List (Nat × NodeData)
  edges : List Edge
deriving DecidableEq

/-- `_apply_edge_time` of `graph_engine.py`: annotate every edge with
`travel_time`.  (The Python version mutates the edge dicts of its argument
and returns it; the value of the returned graph is modelled here.) -/
def _apply_edge_time (G : Graph) : Graph :=
  ⟨G.nodes, G.edges.map (fun e => ⟨e.u, e.v, e.k, _apply_edge_time_data e.data⟩)⟩

/-- Python exceptions (and the library no-path condition) that the server
code can raise on the modelled paths. -/
inductive PyErr where
  | keyError (k : String)
  | valueError (s : String)
  | indexError
  | noPath
deriving DecidableEq

/-- `str(hw)` after `if isinstance(hw, list): hw = hw[0]` as performed by
`_filtered_graph`: unlike `_edge_speed_kmh`, the list case is NOT guarded by
non-emptiness, so `hw[0]` of an empty list raises `IndexError`. -/
def hwFirst : Tag → Except PyErr String
  | Tag.null => Except.ok "None"
  | Tag.str s => Except.ok s
  | Tag.list [] => Except.error PyErr.indexError
  | Tag.list (h :: _) => Except.ok h

/-- Membership of the normalized highway class in
`{"motorway", "motorway_link"}`. -/
def isMotorwayStr (s : String) : Bool := s == "motorway" || s == "motorway_link"

/-- The `remove_edges` loop of `_filtered_graph`: collect the key triples of
the edges whose normalized highway class is motorway or motorway_link,
propagating the `IndexError` of an empty-list tag. -/
def collectRemove : List Edge → Except PyErr (List (Nat × Nat × Nat))
  | [] => Except.ok []
  | e :: es =>
    match hwFirst e.data.highway with
    | Except.error err => Except.error err
    | Except.ok s =>
      match collectRemove es with
      | Except.error err => Except.error err
      | Except.ok rest =>
        if isMotorwayStr s then Except.ok (edgeKey e :: rest) else Except.ok rest

/-- `G.copy()`: a fresh graph with the same value. -/
def Graph.copy (G : Graph) : Graph := G

/-- `H.remove_edges_from(remove_edges)`: drop every edge whose key triple is
listed. -/
def removeEdgesFrom (G : Graph) (rem : List (Nat × Nat × Nat)) : Graph :=
  ⟨G.nodes, G.edges.filter (fun e => !(decide (edgeKey e ∈ rem)))⟩

/-- `_filtered_graph` of `graph_engine.py` (value level): return the graph
unchanged when `avoid_highways` is false, otherwise remove the
motorway-class edges from a copy. -/
def _filtered_graph (G : Graph) (avoid_highways : Bool) : Except PyErr Graph :=
  if avoid_highways = false then Except.ok G
  else
    match collectRemove G.edges with
    | Except.error e => Except.error e
    | Except.ok remove_edges => Except.ok (removeEdgesFrom (Graph.copy G) remove_edges)

/-- Identifier of a graph object in the object store. -/
abbrev GraphId := Nat

/-- A store of graph objects, making Python object identity and in-place
mutation explicit: `mem` maps identifiers to current values (newest entry
first), `next` is the next fresh identifier. -/
structure Store where
  next : GraphId
  mem : List (GraphId × Graph)

/-- The current value of the object `i`. -/
def Store.get (σ : Store) (i : GraphId) : Option Graph := σ.mem.lookup i

/-- Allocate a fresh object holding `G`. -/
def Store.alloc (σ : Store) (G : Graph) : Store × GraphId :=
  (⟨σ.next + 1, (σ.next, G) :: σ.mem⟩, σ.next)

/-- Mutate the object `i` in place to hold `G`. -/
def Store.set (σ : Store) (i : GraphId) (G : Graph) : Store :=
  ⟨σ.next, (i, G) :: σ.mem⟩

/-- Store well-formedness: every allocated identifier is below `next`
(true of every store built by `alloc` from an empty store). -/
def Store.WF (σ : Store) : Prop := ∀ p ∈ σ.mem, p.1 < σ.next

/-- `_filtered_graph` at the object level, mirroring the source line by
line: the `remove_edges` loop only reads the argument; `H = G.copy()`
allocates a fresh object; `H.remove_edges_from(...)` mutates that fresh
object only.  Returns the result (an object identifier, or the raised
exception) together with the final store. -/
def _filtered_graphS (σ : Store) (g : GraphId) (avoid_highways : Bool) :
    Except PyErr GraphId × Store :=
  match Store.get σ g with
  | Option.none => (Except.error (PyErr.keyError (toString g)), σ)
  | Option.some G =>
    if avoid_highways = false then (Except.ok g, σ)
    else
      match collectRemove G.edges with
      | Except.error e => (Except.error e, σ)
      | Except.ok remove_edges =>
        let p := Store.alloc σ (Graph.copy G)
        let σ2 := Store.set p.1 p.2 (removeEdgesFrom (Graph.copy G) remove_edges)
        (Except.ok p.2, σ2)

/-- `G.get_edge_data(u, v)`: the dictionary, as an association list from
edge key to attributes, of all parallel edges from `u` to `v` (empty when
there are none, which is Python-falsy like the `None` the library returns). -/
def get_edge_data (G : Graph) (u v : Nat) : List (Nat × EdgeData) :=
  (G.edges.filter (fun e => e.u == u && e.v == v)).map (fun e => (e.k, e.data))

/-- The inner loop of the route summarizers: the minimum of the given
attribute over an edge dictionary, `Option.none` when no edge carries the
attribute. -/
def minAttr (attr : EdgeData → Option ℚ) (edge_dict : List (Nat × EdgeData)) : Option ℚ :=
  edge_dict.foldl (fun best kd =>
    match attr kd.2 with
    | Option.none => best
    | Option.some x =>
      match best with
      | Option.none => Option.some x
      | Option.some b => Option.some (min b x)) Option.none

/-- `route_length_meters` of `main.py`: sum, over consecutive node pairs,
the minimum `length` among parallel edges; a pair with no edge (or with no
`length` attribute on any parallel edge) contributes nothing. -/
def route_length_meters (G : Graph) (route_nodes : List Nat) : ℚ :=
  (route_nodes.zip route_nodes.tail).foldl
    (fun total p =>
      let edge_dict := get_edge_data G p.1 p.2
      if edge_dict.isEmpty then total
      else
        match minAttr (fun d => d.length) edge_dict with
        | Option.some best => total + best
        | Option.none => total) 0

/-- `route_travel_time_seconds` of `main.py`: identical structure over the
`travel_time` attribute. -/
def route_travel_time_seconds (G : Graph) (route_nodes : List Nat) : ℚ :=
  (route_nodes.zip route_nodes.tail).foldl
    (fun total p =>
      let edge_dict := get_edge_data G p.1 p.2
      if edge_dict.isEmpty then total
      else
        match minAttr (fun d => d.travel_time) edge_dict with
        | Option.some best => total + best
        | Option.none => total) 0

/-- External collaborators (osmnx/networkx): the spatial nearest-node query,
the two path-search primitives (returning `Option.none` for the library
no-path condition — by the library contract they raise no invalid-argument
error), and graph construction from a place name (which may fail, a server
error). -/
structure ExternalLib where
  nearest_nodes : Graph → ℚ → ℚ → Nat
  shortest_path : Graph → Nat → Nat → String → Option (List Nat)
  astar_path : Graph → Nat → Nat → String → Option (List Nat)
  graph_from_place : String → Except PyErr Graph

/-- `get_shortest_route` of `graph_engine.py`: nearest nodes, filter,
weight selection, travel-time annotation for time mode, then dispatch on
the algorithm string; an unrecognized algorithm raises `ValueError`. -/
def get_shortest_route (lib : ExternalLib) (G : Graph)
    (origin_point destination_point : ℚ × ℚ)
    (algorithm weight_mode : String) (avoid_highways : Bool) :
    Except PyErr (List Nat) :=
  let origin_node := lib.nearest_nodes G origin_point.2 origin_point.1
  let destination_node := lib.nearest_nodes G destination_point.2 destination_point.1
  match _filtered_graph G avoid_highways with
  | Except.error e => Except.error e
  | Except.ok H0 =>
    let weight := if weight_mode = "distance" then "length" else "travel_time"
    let H := if weight = "travel_time" then _apply_edge_time H0 else H0
    if algorithm = "dijkstra" then
      match lib.shortest_path H origin_node destination_node weight with
      | Option.some p => Except.ok p
      | Option.none => Except.error PyErr.noPath
    else if algorithm = "astar" then
      match lib.astar_path H origin_node destination_node weight with
      | Option.some p => Except.ok p
      | Option.none => Except.error PyErr.noPath
    else Except.error (PyErr.valueError "Algorithm must be dijkstra or astar.")

/-- `route_nodes_to_coords` of `graph_engine.py`: `G.nodes[nid]` raises
`KeyError` on an unknown node id; otherwise `[x, y]` (longitude first). -/
def route_nodes_to_coords (G : Graph) (route_nodes : List Nat) :
    Except PyErr (List (ℚ × ℚ)) :=
  route_nodes.mapM (fun nid =>
    match G.nodes.lookup nid with
    | Option.some nd => Except.ok (nd.x, nd.y)
    | Option.none => Except.error (PyErr.keyError (toString nid)))

/-- The properties attached to the returned GeoJSON feature. -/
structure FeatureProps where
  algorithm : String
  weight : String
  avoid_highways : Bool
  distance_m : ℚ
  duration_s : ℚ
  nodes : Nat
deriving DecidableEq

/-- A GeoJSON `LineString` feature: coordinate list plus properties. -/
structure Feature where
  props : FeatureProps
  coordinates : List (ℚ × ℚ)
deriving DecidableEq

/-- `route_to_geojson_feature` of `graph_engine.py`. -/
def route_to_geojson_feature (G : Graph) (route_nodes : List Nat)
    (props : FeatureProps) : Except PyErr Feature :=
  (route_nodes_to_coords G route_nodes).map (fun coords => ⟨props, coords⟩)

/-- `request.args.get(k, d)`. -/
def getArg (args : String → Option String) (k d : String) : String :=
  (args k).getD d

/-- Python `s.lower()` (ASCII). -/
def pyLower (s : String) : String := String.mk (s.toList.map Char.toLower)

/-- The truthy set of the `avoid_highways` query parameter:
`{"1", "true", "yes"}`. -/
def truthyFlag (s : String) : Bool := s == "1" || s == "true" || s == "yes"

/-- `float(request.args[k])`: a missing key raises `KeyError(k)`, an
unparsable value raises `ValueError`. -/
def requireFloatArg (args : String → Option String) (k : String) :
    Except PyErr ℚ :=
  match args k with
  | Option.none => Except.error (PyErr.keyError k)
  | Option.some s =>
    match pyFloat s with
    | Option.some q => Except.ok q
    | Option.none => Except.error (PyErr.valueError s)

/-- The `try` body of the `/route-geojson` endpoint of `main.py`, in source
order.  (The `_GRAPH_CACHE` memoization inside `load_graph` only affects
which external build runs, not the value returned, and is folded into
`graph_from_place`.) -/
def route_geojson_handler (lib : ExternalLib) (args : String → Option String) :
    Except PyErr Feature := do
  let place := getArg args "place" "Hoboken, New Jersey, USA"
  let algo := pyLower (getArg args "algo" "dijkstra")
  let weight_mode := pyLower (getArg args "weight" "distance")
  let avoid := truthyFlag (pyLower (getArg args "avoid_highways" "false"))
  let o_lat ← requireFloatArg args "origin_lat"
  let o_lon ← requireFloatArg args "origin_lon"
  let d_lat ← requireFloatArg args "dest_lat"
  let d_lon ← requireFloatArg args "dest_lon"
  let G ← lib.graph_from_place place
  let nodes ← get_shortest_route lib G (o_lat, o_lon) (d_lat, d_lon)
    algo weight_mode avoid
  let dist_m := route_length_meters G nodes
  let time_s := if weight_mode = "time" then route_travel_time_seconds G nodes else 0
  route_to_geojson_feature G nodes ⟨algo, weight_mode, avoid, dist_m, time_s, nodes.length⟩

/-- The `/route-geojson` endpoint: the `except` clauses of `main.py` map
`KeyError` to status 400 and every other exception to status 500. -/
def route_geojson_api (lib : ExternalLib) (args : String → Option String) :
    Nat × Option Feature :=
  match route_geojson_handler lib args with
  | Except.ok f => (200, Option.some f)
  | Except.error (PyErr.keyError _) => (400, Option.none)
  | Except.error _ => (500, Option.none)

/-- Example edge data: a residential road, no maxspeed. -/
def resData : EdgeData := ⟨Option.none, Tag.null, Tag.str "residential", Option.none⟩

/-- Example edge data: a motorway segment, no maxspeed. -/
def motData : EdgeData := ⟨Option.none, Tag.null, Tag.str "motorway", Option.none⟩

/-- Example network with one residential and one motorway edge. -/
def demoGraph : Graph := ⟨[], [⟨1, 2, 0, resData⟩, ⟨2, 3, 0, motData⟩]⟩

/-- The value of `demoGraph` after highway filtering. -/
def demoGraphFiltered : Graph := ⟨[], [⟨1, 2, 0, resData⟩]⟩

/-- Example network with parallel edges of length 10 and 15 between the
same node pair. -/
def demoParallel : Graph :=
  ⟨[], [⟨1, 2, 0, ⟨Option.some 10, Tag.null, Tag.null, Option.none⟩⟩,
        ⟨1, 2, 1, ⟨Option.some 15, Tag.null, Tag.null, Option.none⟩⟩]⟩

/-- A store holding `demoGraph` as object 0. -/
def demoStore : Store := ⟨1, [(0, demoGraph)]⟩

/-- Degenerate external collaborators for concrete instantiations: nearest
node always 0, searches find no path, graph construction fails. -/
def trivialLib : ExternalLib :=
  ⟨fun _ _ _ => 0, fun _ _ _ _ => Option.none, fun _ _ _ _ => Option.none,
   fun _ => Except.error PyErr.noPath⟩

/-- Query args with all four coordinates present but `origin_lat` not
numeric. -/
def argsBadLat : String → Option String := fun k =>
  if k = "origin_lat" then Option.some "abc"
  else if k = "origin_lon" then Option.some "1.0"
  else if k = "dest_lat" then Option.some "2.0"
  else if k = "dest_lon" then Option.some "3.0"
  else Option.none


/-! ### Helper lemmas -/

theorem highwayDefault_pos (hw : Tag) : 0 < highwayDefault hw := by
  rw [highwayDefault, DEFAULT_SPEEDS_KMH]
  simp only [List.lookup_cons]
  repeat' split
  all_goals norm_num [List.lookup_nil, Option.getD]

theorem edge_speed_of_parse_none (d : EdgeData)
    (h : _parse_maxspeed_kmh d.maxspeed = Option.none) :
    _edge_speed_kmh d = highwayDefault d.highway := by
  rw [_edge_speed_kmh, h]

theorem parse_mph_branch (t : Tag) (s : String) (x : ℚ)
    (hscalar : tagScalarStr t = Option.some s)
    (hmph : containsMphChars (pyStripChars (s.toList.map Char.toLower)) = true)
    (hnum : pyFloatChars (pyStripChars (beforeMphChars
      (pyStripChars (s.toList.map Char.toLower)))) = Option.some x) :
    _parse_maxspeed_kmh t = Option.some (x * MPH_TO_KMH) := by
  rw [_parse_maxspeed_kmh, hscalar, Option.some_bind, parseSpeedStr]
  simp only [hmph, if_true, hnum, Option.map_some']

theorem parse_plain_branch (t : Tag) (s : String)
    (hscalar : tagScalarStr t = Option.some s)
    (hnm : containsMphChars (pyStripChars (s.toList.map Char.toLower)) = false) :
    _parse_maxspeed_kmh t =
      pyFloatChars ((pyStripChars (s.toList.map Char.toLower)).filter
        (fun c => c.isDigit || c == '.')) := by
  rw [_parse_maxspeed_kmh, hscalar, Option.some_bind, parseSpeedStr]
  simp only [hnm, Bool.false_eq_true, if_false]

/-! ### Claim theorems -/

/-- C1: for every maxspeed tag whose string form contains "mph"
(case-insensitively), the parsed speed is the leading numeric portion (the
float value of the text before "mph") multiplied by 1.60934. -/
theorem C1_mph_scaling (t : Tag) (s : String) (x : ℚ)
    (hscalar : tagScalarStr t = Option.some s)
    (hmph : containsMphChars (pyStripChars (s.toList.map Char.toLower)) = true)
    (hnum : pyFloatChars (pyStripChars (beforeMphChars
      (pyStripChars (s.toList.map Char.toLower)))) = Option.some x) :
    _parse_maxspeed_kmh t = Option.some (x * MPH_TO_KMH) :=
  parse_mph_branch t s x hscalar hmph hnum

/-- C1 witness: "30 mph" parses to 48.2802 km/h. -/
theorem C1_mph_scaling_witness :
    containsMphChars (pyStripChars ("30 mph".toList.map Char.toLower)) = true ∧
    _parse_maxspeed_kmh (Tag.str "30 mph") = Option.some (482802 / 10000 : ℚ) := by
  constructor
  · decide
  · have hnum : pyFloatChars (pyStripChars (beforeMphChars
        (pyStripChars ("30 mph".toList.map Char.toLower)))) = Option.some (30 : ℚ) := by
      have h : pyFloatRepChars (pyStripChars (beforeMphChars
          (pyStripChars ("30 mph".toList.map Char.toLower)))) = Option.some (30, 0) := by
        decide
      rw [pyFloatChars, h, Option.map_some']
      norm_num [repVal]
    rw [C1_mph_scaling (Tag.str "30 mph") "30 mph" 30 rfl (by decide) hnum]
    norm_num [MPH_TO_KMH]

/-- C2: deriving the edge speed is total; whenever the maxspeed tag is
absent or unparsable (e.g. "unknown", "", "--") the speed falls back to the
class default, given by the table (motorway 100, trunk 80, primary 60,
secondary 50, tertiary 40, unclassified 35, residential 30, living_street
15, service 20), and an unrecognized or missing class yields 40 km/h. -/
theorem C2_speed_fallback :
    (∀ d : EdgeData, _parse_maxspeed_kmh d.maxspeed = Option.none →
      _edge_speed_kmh d = highwayDefault d.highway)
    ∧ _parse_maxspeed_kmh (Tag.str "unknown") = Option.none
    ∧ _parse_maxspeed_kmh (Tag.str "") = Option.none
    ∧ _parse_maxspeed_kmh (Tag.str "--") = Option.none
    ∧ _parse_maxspeed_kmh Tag.null = Option.none
    ∧ highwayDefault (Tag.str "motorway") = 100
    ∧ highwayDefault (Tag.str "trunk") = 80
    ∧ highwayDefault (Tag.str "primary") = 60
    ∧ highwayDefault (Tag.str "secondary") = 50
    ∧ highwayDefault (Tag.str "tertiary") = 40
    ∧ highwayDefault (Tag.str "unclassified") = 35
    ∧ highwayDefault (Tag.str "residential") = 30
    ∧ highwayDefault (Tag.str "living_street") = 15
    ∧ highwayDefault (Tag.str "service") = 20
    ∧ (∀ s : String, ¬ s ∈ DEFAULT_SPEEDS_KMH.map Prod.fst →
        highwayDefault (Tag.str s) = 40)
    ∧ highwayDefault Tag.null = 40 := by
  refine ⟨fun d h => edge_speed_of_parse_none d h,
    by decide, by decide, by decide, by decide,
    by decide, by decide, by decide, by decide, by decide,
    by decide, by decide, by decide, by decide, ?_, by decide⟩
  intro s hs
  simp only [DEFAULT_SPEEDS_KMH, List.map_cons, List.map_nil, List.mem_cons,
    List.not_mem_nil, or_false, not_or] at hs
  obtain ⟨h1, h2, h3, h4, h5, h6, h7, h8, h9⟩ := hs
  rw [highwayDefault, tagFirstStr, DEFAULT_SPEEDS_KMH]
  simp only [List.lookup_cons, List.lookup_nil,
    beq_eq_false_iff_ne.mpr h1, beq_eq_false_iff_ne.mpr h2, beq_eq_false_iff_ne.mpr h3,
    beq_eq_false_iff_ne.mpr h4, beq_eq_false_iff_ne.mpr h5, beq_eq_false_iff_ne.mpr h6,
    beq_eq_false_iff_ne.mpr h7, beq_eq_false_iff_ne.mpr h8, beq_eq_false_iff_ne.mpr h9,
    Option.getD_none]

/-- C2 witness: "unknown" is unparsable and a residential edge falls back
to 30 km/h. -/
theorem C2_speed_fallback_witness :
    _parse_maxspeed_kmh (Tag.str "unknown") = Option.none ∧
    _edge_speed_kmh ⟨Option.none, Tag.str "unknown", Tag.str "residential", Option.none⟩ = 30 := by
  refine ⟨C2_speed_fallback.2.1, ?_⟩
  rw [C2_speed_fallback.1 ⟨Option.none, Tag.str "unknown", Tag.str "residential", Option.none⟩
    (by decide)]
  decide

/-- C3: the travel-time pass maps every edge to the same edge with
travel_time set to length / (speed × 1000/3600) when the speed in m/s is
positive and to 0 otherwise; for non-negative length and positive speed the
stored travel_time is non-negative. -/
theorem C3_travel_time_pass (G : Graph) (e : Edge) (he : e ∈ G.edges) :
    Edge.mk e.u e.v e.k (_apply_edge_time_data e.data) ∈ (_apply_edge_time G).edges
    ∧ (0 < _edge_speed_kmh e.data * 1000 / 3600 →
        (_apply_edge_time_data e.data).travel_time =
          Option.some (e.data.length.getD 0 / (_edge_speed_kmh e.data * 1000 / 3600)))
    ∧ (¬ 0 < _edge_speed_kmh e.data * 1000 / 3600 →
        (_apply_edge_time_data e.data).travel_time = Option.some 0)
    ∧ (0 ≤ e.data.length.getD 0 → 0 < _edge_speed_kmh e.data →
        ∃ tt, (_apply_edge_time_data e.data).travel_time = Option.some tt ∧ 0 ≤ tt) := by
  refine ⟨?_, ?_, ?_, ?_⟩
  · rw [_apply_edge_time]
    exact List.mem_map_of_mem _ he
  · intro h
    simp only [_apply_edge_time_data, if_pos h]
  · intro h
    simp only [_apply_edge_time_data, if_neg h]
  · intro hlen hspd
    have hmps : 0 < _edge_speed_kmh e.data * 1000 / 3600 :=
      div_pos (mul_pos hspd (by norm_num)) (by norm_num)
    refine ⟨e.data.length.getD 0 / (_edge_speed_kmh e.data * 1000 / 3600), ?_,
      div_nonneg hlen (le_of_lt hmps)⟩
    simp only [_apply_edge_time_data, if_pos hmps]

/-- C3 witness: a 100 m residential edge (derived speed 30 km/h) gets a
non-negative travel_time. -/
theorem C3_travel_time_pass_witness :
    0 ≤ ((⟨Option.some 100, Tag.null, Tag.str "residential", Option.none⟩ : EdgeData).length.getD 0)
    ∧ 0 < _edge_speed_kmh ⟨Option.some 100, Tag.null, Tag.str "residential", Option.none⟩
    ∧ ∃ tt, (_apply_edge_time_data
        ⟨Option.some 100, Tag.null, Tag.str "residential", Option.none⟩).travel_time =
          Option.some tt ∧ 0 ≤ tt := by
  have h1 : 0 ≤ ((⟨Option.some 100, Tag.null, Tag.str "residential", Option.none⟩ :
      EdgeData).length.getD 0) := by
    rw [show ((⟨Option.some 100, Tag.null, Tag.str "residential", Option.none⟩ :
      EdgeData).length.getD 0) = 100 from rfl]
    norm_num
  have h2 : 0 < _edge_speed_kmh ⟨Option.some 100, Tag.null, Tag.str "residential", Option.none⟩ := by
    rw [show _edge_speed_kmh ⟨Option.some 100, Tag.null, Tag.str "residential", Option.none⟩ = 30
      from by decide]
    norm_num
  exact ⟨h1, h2,
    (C3_travel_time_pass ⟨[], [⟨1, 2, 0, ⟨Option.some 100, Tag.null, Tag.str "residential",
      Option.none⟩⟩]⟩ _ (List.mem_singleton.mpr rfl)).2.2.2 h1 h2⟩

/-- C10 counterexample: the maxspeed tag "-30 mph" parses to a negative
speed, which `_edge_speed_kmh` returns unchanged (Python truthiness only
filters 0), so the zero-speed guard branch of the travel-time computation
IS reached: a 100 m edge gets travel_time 0. -/
theorem C10_zero_guard_counterexample :
    _edge_speed_kmh ⟨Option.some 100, Tag.str "-30 mph", Tag.null, Option.none⟩ < 0
    ∧ (_apply_edge_time_data
        ⟨Option.some 100, Tag.str "-30 mph", Tag.null, Option.none⟩).travel_time =
          Option.some 0 := by
  have hnum : pyFloatChars (pyStripChars (beforeMphChars
      (pyStripChars ("-30 mph".toList.map Char.toLower)))) = Option.some (-30 : ℚ) := by
    have h : pyFloatRepChars (pyStripChars (beforeMphChars
        (pyStripChars ("-30 mph".toList.map Char.toLower)))) = Option.some (-30, 0) := by
      decide
    rw [pyFloatChars, h, Option.map_some']
    norm_num [repVal]
  have hp := parse_mph_branch (Tag.str "-30 mph") "-30 mph" (-30) rfl (by decide) hnum
  have hspeed : _edge_speed_kmh ⟨Option.some 100, Tag.str "-30 mph", Tag.null, Option.none⟩ =
      (-30) * MPH_TO_KMH := by
    simp only [_edge_speed_kmh, hp]
    rw [if_neg (by norm_num [MPH_TO_KMH])]
  constructor
  · rw [hspeed]
    norm_num [MPH_TO_KMH]
  · simp only [_apply_edge_time_data]
    rw [if_neg (by rw [hspeed]; norm_num [MPH_TO_KMH])]

/-- C10 (amended): the derived edge speed is never exactly 0 — a maxspeed
parsing to 0 (such as "0" or "0 mph") is Python-falsy and replaced by the
strictly positive class default — but the zero-speed guard branch remains
reachable for negative parsed speeds (see the counterexample). -/
theorem C10_speed_never_zero :
    (∀ d : EdgeData, _edge_speed_kmh d ≠ 0)
    ∧ _parse_maxspeed_kmh (Tag.str "0") = Option.some 0
    ∧ _parse_maxspeed_kmh (Tag.str "0 mph") = Option.some 0
    ∧ (∀ d : EdgeData, _parse_maxspeed_kmh d.maxspeed = Option.some 0 →
        _edge_speed_kmh d = highwayDefault d.highway) := by
  refine ⟨?_, ?_, ?_, ?_⟩
  · intro d
    rcases h : _parse_maxspeed_kmh d.maxspeed with _ | ms
    · rw [edge_speed_of_parse_none d h]
      exact ne_of_gt (highwayDefault_pos d.highway)
    · simp only [_edge_speed_kmh, h]
      by_cases hz : ms = 0
      · rw [if_pos hz]
        exact ne_of_gt (highwayDefault_pos d.highway)
      · rw [if_neg hz]
        exact hz
  · rw [parse_plain_branch (Tag.str "0") "0" rfl (by decide)]
    have h : pyFloatRepChars ((pyStripChars ("0".toList.map Char.toLower)).filter
        (fun c => c.isDigit || c == '.')) = Option.some (0, 0) := by decide
    rw [pyFloatChars, h, Option.map_some']
    norm_num [repVal]
  · have hnum : pyFloatChars (pyStripChars (beforeMphChars
        (pyStripChars ("0 mph".toList.map Char.toLower)))) = Option.some (0 : ℚ) := by
      have h : pyFloatRepChars (pyStripChars (beforeMphChars
          (pyStripChars ("0 mph".toList.map Char.toLower)))) = Option.some (0, 0) := by decide
      rw [pyFloatChars, h, Option.map_some']
      norm_num [repVal]
    rw [parse_mph_branch (Tag.str "0 mph") "0 mph" 0 rfl (by decide) hnum]
    norm_num
  · intro d h
    simp only [_edge_speed_kmh, h]
    rw [if_pos trivial]

/-- C10 witness: "0" parses to 0 and a service road with maxspeed "0" takes
the (non-zero) class default. -/
theorem C10_speed_never_zero_witness :
    _parse_maxspeed_kmh (Tag.str "0") = Option.some 0 ∧
    _edge_speed_kmh ⟨Option.none, Tag.str "0", Tag.str "service", Option.none⟩ =
      highwayDefault (Tag.str "service") ∧
    _edge_speed_kmh ⟨Option.none, Tag.str "0", Tag.str "service", Option.none⟩ ≠ 0 :=
  ⟨C10_speed_never_zero.2.1,
   C10_speed_never_zero.2.2.2 ⟨Option.none, Tag.str "0", Tag.str "service", Option.none⟩
     C10_speed_never_zero.2.1,
   C10_speed_never_zero.1 ⟨Option.none, Tag.str "0", Tag.str "service", Option.none⟩⟩


/-- Highway normalization in the filter succeeds on every tag that is not an empty list, agreeing with the total normalization. -/
theorem hwFirst_ok (t : Tag) (h : t ≠ Tag.list []) :
    hwFirst t = Except.ok (tagFirstStr t) := by
  cases t with
  | null => rfl
  | str s => rfl
  | list l =>
    cases l with
    | nil => exact absurd rfl h
    | cons a l => rfl

/-- When no edge carries an empty-list highway tag, the removal loop returns exactly the keys of the motorway-class edges. -/
theorem collectRemove_ok (l : List Edge)
    (h : ∀ e ∈ l, e.data.highway ≠ Tag.list []) :
    collectRemove l = Except.ok ((l.filter
      (fun e => isMotorwayStr (tagFirstStr e.data.highway))).map edgeKey) := by
  induction l with
  | nil => rfl
  | cons e es ih =>
    have he := hwFirst_ok e.data.highway (h e (List.mem_cons_self e es))
    have ihh := ih (fun x hx => h x (List.mem_cons_of_mem _ hx))
    rw [collectRemove, he, ihh, List.filter_cons]
    by_cases hm : isMotorwayStr (tagFirstStr e.data.highway) = true
    · simp only [hm, if_true, List.map_cons]
    · have hm' : isMotorwayStr (tagFirstStr e.data.highway) = false :=
        Bool.eq_false_iff.mpr hm
      simp only [hm', Bool.false_eq_true, if_false]

/-- If the removal loop succeeds, no traversed edge carried an empty-list highway tag. -/
theorem collectRemove_ok_forall (l : List Edge) (r : List (Nat × Nat × Nat))
    (h : collectRemove l = Except.ok r) :
    ∀ e ∈ l, e.data.highway ≠ Tag.list [] := by
  induction l generalizing r with
  | nil =>
    intro e he
    cases he
  | cons e es ih =>
    intro x hx
    rw [collectRemove] at h
    rcases hf : hwFirst e.data.highway with err | s
    · rw [hf] at h
      cases h
    · rw [hf] at h
      rcases hc : collectRemove es with err | rest
      · rw [hc] at h
        cases h
      · rcases List.mem_cons.mp hx with hx | hx
        · subst hx
          intro hnil
          rw [hnil] at hf
          cases hf
        · exact ih rest hc x hx

/-- C4: with the avoidance flag false the route filter returns the network unchanged; with the flag true it returns a network with the same nodes whose edge set is exactly the input edge set minus the edges whose normalized highway class (first element of a list tag) is motorway or motorway_link — no edge of any other class is removed.  The hypotheses are data-model well-formedness: every list-valued highway tag has a first element, and edge key triples identify edges uniquely. -/
theorem C4_filter (G : Graph)
    (hne : ∀ e ∈ G.edges, e.data.highway ≠ Tag.list [])
    (hkeys : (G.edges.map edgeKey).Nodup) :
    _filtered_graph G false = Except.ok G
    ∧ ∃ H, _filtered_graph G true = Except.ok H
        ∧ H.nodes = G.nodes
        ∧ H.edges = G.edges.filter
            (fun e => !(isMotorwayStr (tagFirstStr e.data.highway))) := by
  refine ⟨rfl, ?_⟩
  rw [_filtered_graph, if_neg (by decide), collectRemove_ok G.edges hne]
  refine ⟨_, rfl, rfl, ?_⟩
  show G.edges.filter _ = G.edges.filter _
  apply List.filter_congr
  intro e hemem
  congr 1
  by_cases hm : isMotorwayStr (tagFirstStr e.data.highway) = true
  · rw [hm]
    exact decide_eq_true (List.mem_map_of_mem edgeKey (List.mem_filter.mpr ⟨hemem, hm⟩))
  · have hm' : isMotorwayStr (tagFirstStr e.data.highway) = false :=
      Bool.eq_false_iff.mpr hm
    rw [hm']
    apply decide_eq_false
    intro hmem
    obtain ⟨e2, he2, hkey⟩ := List.mem_map.mp hmem
    obtain ⟨he2G, he2m⟩ := List.mem_filter.mp he2
    have : e2 = e := List.inj_on_of_nodup_map hkeys he2G hemem hkey
    subst this
    rw [he2m] at hm'
    cases hm'

/-- C4 witness: the filter keeps the residential edge and drops the motorway edge of the demo network. -/
theorem C4_filter_witness :
    (∀ e ∈ demoGraph.edges, e.data.highway ≠ Tag.list [])
    ∧ (demoGraph.edges.map edgeKey).Nodup
    ∧ (_filtered_graph demoGraph false = Except.ok demoGraph
      ∧ ∃ H, _filtered_graph demoGraph true = Except.ok H
          ∧ H.nodes = demoGraph.nodes
          ∧ H.edges = demoGraph.edges.filter
              (fun e => !(isMotorwayStr (tagFirstStr e.data.highway)))) :=
  ⟨by decide, by decide, C4_filter demoGraph (by decide) (by decide)⟩


/-- A successful association-list lookup is a membership. -/
theorem lookup_mem {α : Type} {β : Type} [BEq α] [LawfulBEq α]
    {l : List (α × β)} {a : α} {b : β}
    (h : List.lookup a l = Option.some b) : (a, b) ∈ l := by
  induction l with
  | nil => cases h
  | cons p l ih =>
    obtain ⟨k, v⟩ := p
    rw [List.lookup_cons] at h
    rcases hbeq : (a == k) with _ | _
    · simp only [hbeq] at h
      exact List.mem_cons_of_mem _ (ih h)
    · simp only [hbeq] at h
      obtain rfl : v = b := Option.some.inj h
      obtain rfl : a = k := eq_of_beq hbeq
      exact List.mem_cons_self _ _

/-- C5: at the object level, filtering with the flag true never mutates the original network object: after the call the original identifier still holds the untouched graph (nodes, edges and attributes), the removal having happened on the freshly allocated copy only. -/
theorem C5_no_mutation (σ : Store) (g : GraphId) (G : Graph)
    (hwf : Store.WF σ) (hg : Store.get σ g = Option.some G) :
    Store.get (_filtered_graphS σ g true).2 g = Option.some G := by
  simp only [_filtered_graphS, hg]
  rw [if_neg (by decide)]
  rcases hcr : collectRemove G.edges with err | rem
  · exact hg
  · have hglt : g < σ.next := hwf (g, G) (lookup_mem hg)
    have hne : (g == σ.next) = false := beq_eq_false_iff_ne.mpr (Nat.ne_of_lt hglt)
    simp only [Store.get, Store.set, Store.alloc, Graph.copy, List.lookup_cons, hne]
    exact hg

/-- C5 witness: filtering object 0 of the demo store leaves object 0 holding the demo network. -/
theorem C5_no_mutation_witness :
    Store.WF demoStore ∧ Store.get demoStore 0 = Option.some demoGraph ∧
    Store.get (_filtered_graphS demoStore 0 true).2 0 = Option.some demoGraph :=
  ⟨fun p hp => by rcases List.mem_singleton.mp hp with rfl; decide,
   by decide,
   C5_no_mutation demoStore 0 demoGraph
     (fun p hp => by rcases List.mem_singleton.mp hp with rfl; decide) (by decide)⟩

/-- C6: the filter with flag true is idempotent — filtering the result of a successful first filtering pass succeeds and returns the same edge set. -/
theorem C6_filter_idempotent (G H : Graph)
    (h : _filtered_graph G true = Except.ok H) :
    ∃ H2, _filtered_graph H true = Except.ok H2 ∧ H2.edges = H.edges := by
  rw [_filtered_graph, if_neg (by decide)] at h
  rcases hcr : collectRemove G.edges with err | rem
  · rw [hcr] at h
    cases h
  · rw [hcr] at h
    have hneG := collectRemove_ok_forall G.edges rem hcr
    have hrem := collectRemove_ok G.edges hneG
    rw [hcr] at hrem
    obtain rfl : rem = (G.edges.filter
        (fun e => isMotorwayStr (tagFirstStr e.data.highway))).map edgeKey :=
      Except.ok.inj hrem
    obtain rfl : H = removeEdgesFrom (Graph.copy G) _ := (Except.ok.inj h).symm
    have hsub : ∀ e ∈ (removeEdgesFrom (Graph.copy G) ((G.edges.filter
        (fun e => isMotorwayStr (tagFirstStr e.data.highway))).map edgeKey)).edges,
        e ∈ G.edges := by
      intro e he
      exact (List.mem_filter.mp he).1
    have hneH : ∀ e ∈ (removeEdgesFrom (Graph.copy G) ((G.edges.filter
        (fun e => isMotorwayStr (tagFirstStr e.data.highway))).map edgeKey)).edges,
        e.data.highway ≠ Tag.list [] :=
      fun e he => hneG e (hsub e he)
    have hnoMot : ∀ e ∈ (removeEdgesFrom (Graph.copy G) ((G.edges.filter
        (fun e => isMotorwayStr (tagFirstStr e.data.highway))).map edgeKey)).edges,
        isMotorwayStr (tagFirstStr e.data.highway) = false := by
      intro e he
      cases hmm : isMotorwayStr (tagFirstStr e.data.highway) with
      | false => rfl
      | true =>
        exfalso
        obtain ⟨heG, hdec⟩ := List.mem_filter.mp he
        have hkey : edgeKey e ∈ (G.edges.filter
            (fun e => isMotorwayStr (tagFirstStr e.data.highway))).map edgeKey :=
          List.mem_map_of_mem _ (List.mem_filter.mpr ⟨heG, hmm⟩)
        rw [decide_eq_true hkey] at hdec
        cases hdec
    have hcrH := collectRemove_ok (removeEdgesFrom (Graph.copy G) ((G.edges.filter
        (fun e => isMotorwayStr (tagFirstStr e.data.highway))).map edgeKey)).edges hneH
    have hfilter_nil : (removeEdgesFrom (Graph.copy G) ((G.edges.filter
        (fun e => isMotorwayStr (tagFirstStr e.data.highway))).map edgeKey)).edges.filter
          (fun e => isMotorwayStr (tagFirstStr e.data.highway)) = [] := by
      apply List.filter_eq_nil_iff.mpr
      intro e he
      rw [hnoMot e he]
      exact Bool.false_ne_true
    rw [hfilter_nil, List.map_nil] at hcrH
    refine ⟨removeEdgesFrom (Graph.copy (removeEdgesFrom (Graph.copy G)
      ((G.edges.filter (fun e => isMotorwayStr (tagFirstStr e.data.highway))).map
        edgeKey))) [], ?_, ?_⟩
    · rw [_filtered_graph, if_neg (by decide), hcrH]
    · simp [removeEdgesFrom, Graph.copy]

/-- C6 witness: idempotence at the demo network. -/
theorem C6_filter_idempotent_witness :
    _filtered_graph demoGraph true = Except.ok demoGraphFiltered ∧
    ∃ H2, _filtered_graph demoGraphFiltered true = Except.ok H2 ∧
      H2.edges = demoGraphFiltered.edges :=
  ⟨by rfl, C6_filter_idempotent demoGraph demoGraphFiltered (by rfl)⟩


/-- Accumulator form of the summarizer inner loop. -/
theorem minAttr_some_acc (attr : EdgeData → Option ℚ) (ed : List (Nat × EdgeData)) (b0 : ℚ) :
    ed.foldl (fun best kd =>
      match attr kd.2 with
      | Option.none => best
      | Option.some x =>
        match best with
        | Option.none => Option.some x
        | Option.some b => Option.some (min b x)) (Option.some b0) =
    Option.some (List.foldl min b0 (ed.filterMap (fun kd => attr kd.2))) := by
  induction ed generalizing b0 with
  | nil => rfl
  | cons kd ed ih =>
    rw [List.foldl_cons]
    rcases ha : attr kd.2 with _ | x
    · simp only [ha, List.filterMap_cons]
      exact ih b0
    · simp only [ha, List.filterMap_cons, List.foldl_cons]
      exact ih (min b0 x)

/-- The summarizer inner loop computes the minimum of the present attribute values. -/
theorem minAttr_eq_min (attr : EdgeData → Option ℚ) (ed : List (Nat × EdgeData)) :
    minAttr attr ed = (ed.filterMap (fun kd => attr kd.2)).min? := by
  cases ed with
  | nil => rfl
  | cons kd ed =>
    rw [minAttr, List.foldl_cons]
    rcases ha : attr kd.2 with _ | x
    · simp only [ha, List.filterMap_cons]
      exact minAttr_eq_min attr ed
    · simp only [ha, List.filterMap_cons]
      rw [minAttr_some_acc]
      rfl

/-- The summarizer outer loop sums the per-step minima. -/
theorem summar_foldl (attr : EdgeData → Option ℚ) (G : Graph)
    (l : List (Nat × Nat)) (a : ℚ) :
    l.foldl (fun total p =>
      let edge_dict := get_edge_data G p.1 p.2
      if edge_dict.isEmpty then total
      else
        match minAttr attr edge_dict with
        | Option.some best => total + best
        | Option.none => total) a =
    a + (l.map (fun p => ((minAttr attr (get_edge_data G p.1 p.2)).getD 0))).sum := by
  induction l generalizing a with
  | nil => simp
  | cons p l ih =>
    rw [List.foldl_cons, List.map_cons, List.sum_cons]
    by_cases hemp : (get_edge_data G p.1 p.2).isEmpty = true
    · have hnil : get_edge_data G p.1 p.2 = [] := List.isEmpty_iff.mp hemp
      simp only [hemp, if_true, ih, hnil]
      rw [if_pos (show (([] : List (Nat × EdgeData)).isEmpty = true) from rfl)]
      rw [show minAttr attr ([] : List (Nat × EdgeData)) = Option.none from rfl,
        Option.getD_none]
      ring
    · have hemp' : (get_edge_data G p.1 p.2).isEmpty = false := Bool.eq_false_iff.mpr hemp
      simp only [hemp', Bool.false_eq_true, if_false]
      rcases hmin : minAttr attr (get_edge_data G p.1 p.2) with _ | b
      · simp only [ih, Option.getD_none]
        ring
      · simp only [ih, Option.getD_some]
        ring

/-- The route length is the sum over consecutive node pairs of the minimum length among parallel edges (0 for a pair with no edge). -/
theorem route_length_meters_eq (G : Graph) (nodes : List Nat) :
    route_length_meters G nodes =
      ((nodes.zip nodes.tail).map (fun p =>
        (((get_edge_data G p.1 p.2).filterMap (fun kd => kd.2.length)).min?.getD 0))).sum := by
  rw [route_length_meters, summar_foldl (fun d => d.length) G (nodes.zip nodes.tail) 0,
    zero_add]
  simp only [minAttr_eq_min]

/-- The route travel time is the sum over consecutive node pairs of the minimum travel_time among parallel edges (0 for a pair with no edge). -/
theorem route_travel_time_seconds_eq (G : Graph) (nodes : List Nat) :
    route_travel_time_seconds G nodes =
      ((nodes.zip nodes.tail).map (fun p =>
        (((get_edge_data G p.1 p.2).filterMap (fun kd => kd.2.travel_time)).min?.getD 0))).sum := by
  rw [route_travel_time_seconds, summar_foldl (fun d => d.travel_time) G (nodes.zip nodes.tail) 0,
    zero_add]
  simp only [minAttr_eq_min]

/-- C7: the total route length equals the sum over consecutive node pairs of the minimum length among the parallel edges connecting the pair, a pair with no connecting edge contributing 0 rather than failing; the same holds for total travel time over travel_time; parallel edges of length 10 and 15 contribute 10, and a disconnected pair contributes 0. -/
theorem C7_route_totals :
    (∀ (G : Graph) (nodes : List Nat),
      route_length_meters G nodes =
        ((nodes.zip nodes.tail).map (fun p =>
          (((get_edge_data G p.1 p.2).filterMap (fun kd => kd.2.length)).min?.getD 0))).sum)
    ∧ (∀ (G : Graph) (nodes : List Nat),
      route_travel_time_seconds G nodes =
        ((nodes.zip nodes.tail).map (fun p =>
          (((get_edge_data G p.1 p.2).filterMap (fun kd => kd.2.travel_time)).min?.getD 0))).sum)
    ∧ route_length_meters demoParallel [1, 2] = 10
    ∧ route_length_meters demoParallel [1, 3] = 0 := by
  refine ⟨route_length_meters_eq, route_travel_time_seconds_eq, ?_, ?_⟩
  · rw [route_length_meters_eq]
    have hged : get_edge_data demoParallel 1 2 =
        [(0, ⟨Option.some 10, Tag.null, Tag.null, Option.none⟩),
         (1, ⟨Option.some 15, Tag.null, Tag.null, Option.none⟩)] := rfl
    have hzip : ([1, 2] : List Nat).zip ([1, 2] : List Nat).tail = [(1, 2)] := rfl
    rw [hzip, List.map_cons, List.map_nil, List.sum_cons, List.sum_nil, hged]
    rw [show ([(0, (⟨Option.some 10, Tag.null, Tag.null, Option.none⟩ : EdgeData)),
      (1, ⟨Option.some 15, Tag.null, Tag.null, Option.none⟩)].filterMap
        (fun kd => kd.2.length)) = [10, 15] from rfl]
    rw [show ([10, 15] : List ℚ).min? = Option.some (min 10 15) from rfl, Option.getD_some]
    rw [min_eq_left (by norm_num)]
    ring
  · rw [route_length_meters_eq]
    have hged : get_edge_data demoParallel 1 3 = [] := rfl
    have hzip : ([1, 3] : List Nat).zip ([1, 3] : List Nat).tail = [(1, 3)] := rfl
    rw [hzip, List.map_cons, List.map_nil, List.sum_cons, List.sum_nil, hged]
    simp


/-- Exception propagation: a successful step continues the handler. -/
theorem bind_ok_eq {α β : Type} (a : α) (f : α → Except PyErr β) :
    (Except.ok a : Except PyErr α) >>= f = f a := rfl

/-- Exception propagation: a raised exception aborts the handler. -/
theorem bind_error_eq {α β : Type} (e : PyErr) (f : α → Except PyErr β) :
    (Except.error e : Except PyErr α) >>= f = Except.error e := rfl

/-- C9: once the filtered view exists, any algorithm string other than "dijkstra" and "astar" makes the route query fail with the invalid-argument error, and for the two recognized strings the query never fails with an invalid-argument error (it returns the library path or the no-path condition). -/
theorem C9_algorithm_dispatch (lib : ExternalLib) (G H : Graph)
    (o d : ℚ × ℚ) (algo weight_mode : String) (avoid : Bool)
    (hfilter : _filtered_graph G avoid = Except.ok H) :
    ((algo ≠ "dijkstra" ∧ algo ≠ "astar") →
      get_shortest_route lib G o d algo weight_mode avoid =
        Except.error (PyErr.valueError "Algorithm must be dijkstra or astar."))
    ∧ (∀ s : String, (algo = "dijkstra" ∨ algo = "astar") →
      get_shortest_route lib G o d algo weight_mode avoid ≠
        Except.error (PyErr.valueError s)) := by
  constructor
  · rintro ⟨hd, ha⟩
    simp only [get_shortest_route, hfilter]
    rw [if_neg hd, if_neg ha]
  · rintro s (h | h)
    · subst h
      simp only [get_shortest_route, hfilter]
      rw [if_pos trivial]
      split
      · simp
      · simp
    · subst h
      simp only [get_shortest_route, hfilter]
      rw [if_neg (show ¬("astar" = "dijkstra") from by decide), if_pos trivial]
      split
      · simp
      · simp

/-- C9 witness: the algorithm string "bfs" raises the invalid-argument error. -/
theorem C9_algorithm_dispatch_witness :
    _filtered_graph (⟨[], []⟩ : Graph) false = Except.ok (⟨[], []⟩ : Graph) ∧
    ("bfs" ≠ "dijkstra" ∧ "bfs" ≠ "astar") ∧
    get_shortest_route trivialLib ⟨[], []⟩ (0, 0) (0, 0) "bfs" "distance" false =
      Except.error (PyErr.valueError "Algorithm must be dijkstra or astar.") :=
  ⟨rfl, ⟨by decide, by decide⟩,
   (C9_algorithm_dispatch trivialLib ⟨[], []⟩ ⟨[], []⟩ (0, 0) (0, 0) "bfs" "distance" false
     rfl).1 ⟨by decide, by decide⟩⟩

/-- C8 counterexample: a request with all four coordinates present but origin_lat = "abc" (not parseable as a float) is answered with status 500, not the client error 400 the claim states — the ValueError of float() is caught by the generic handler, only KeyError maps to 400. -/
theorem C8_nonnumeric_counterexample :
    (∀ k ∈ ["origin_lat", "origin_lon", "dest_lat", "dest_lon"], (argsBadLat k).isSome = true)
    ∧ pyFloat "abc" = Option.none
    ∧ (route_geojson_api trivialLib argsBadLat).1 = 500
    ∧ ¬ (route_geojson_api trivialLib argsBadLat).1 = 400 := by
  refine ⟨by decide, by decide, by decide, by decide⟩

/-- C8 (amended): when all four coordinate parameters are present and at least one is not parseable as a float, the endpoint returns status 500 (the generic server-error path), for any external collaborators. -/
theorem C8_nonnumeric_is_500 (lib : ExternalLib) (args : String → Option String)
    (s1 s2 s3 s4 : String)
    (h1 : args "origin_lat" = Option.some s1)
    (h2 : args "origin_lon" = Option.some s2)
    (h3 : args "dest_lat" = Option.some s3)
    (h4 : args "dest_lon" = Option.some s4)
    (hbad : pyFloat s1 = Option.none ∨ pyFloat s2 = Option.none ∨
            pyFloat s3 = Option.none ∨ pyFloat s4 = Option.none) :
    (route_geojson_api lib args).1 = 500 := by
  have hh : ∃ s, route_geojson_handler lib args = Except.error (PyErr.valueError s) := by
    rcases hp1 : pyFloat s1 with _ | q1
    · exact ⟨s1, by simp only [route_geojson_handler, requireFloatArg, h1, hp1,
        bind_error_eq]⟩
    · rcases hp2 : pyFloat s2 with _ | q2
      · exact ⟨s2, by simp only [route_geojson_handler, requireFloatArg, h1, hp1, h2, hp2,
          bind_ok_eq, bind_error_eq]⟩
      · rcases hp3 : pyFloat s3 with _ | q3
        · exact ⟨s3, by simp only [route_geojson_handler, requireFloatArg, h1, hp1, h2, hp2,
            h3, hp3, bind_ok_eq, bind_error_eq]⟩
        · rcases hp4 : pyFloat s4 with _ | q4
          · exact ⟨s4, by simp only [route_geojson_handler, requireFloatArg, h1, hp1, h2, hp2,
              h3, hp3, h4, hp4, bind_ok_eq, bind_error_eq]⟩
          · exfalso
            rcases hbad with hb | hb | hb | hb
            · rw [hb] at hp1
              cases hp1
            · rw [hb] at hp2
              cases hp2
            · rw [hb] at hp3
              cases hp3
            · rw [hb] at hp4
              cases hp4
  obtain ⟨s, hs⟩ := hh
  simp only [route_geojson_api, hs]

/-- C8 witness: the concrete malformed request yields 500. -/
theorem C8_nonnumeric_is_500_witness :
    argsBadLat "origin_lat" = Option.some "abc" ∧ pyFloat "abc" = Option.none ∧
    (route_geojson_api trivialLib argsBadLat).1 = 500 :=
  ⟨by decide, by decide,
   C8_nonnumeric_is_500 trivialLib argsBadLat "abc" "1.0" "2.0" "3.0"
     (by decide) (by decide) (by decide) (by decide) (Or.inl (by decide))⟩


end SmartRoute
